import Mathlib

set_option maxHeartbeats 1000000

/-!
Shallow embedding of the call-signaling core of `src/lib/webrtc-service.ts`
(repository Hayk95/calling_v2), together with the self-call guard of
`src/app/page.tsx`.  Handlers are modelled as pure functions from a service
state to a new state plus a trace of externally visible actions (engine
invocations, relay notifications, UI-callback invocations).  Asynchronous
handlers are modelled as running to completion sequentially, matching the
single-threaded event-processing model of the source.
-/

/-- Call lifecycle state, `CallState` in webrtc-service.ts line 8. -/
inductive CallState
  | idle
  | calling
  | ringing
  | answered
  | ended
  | rejected
deriving DecidableEq, Repr

/-- Observable signaling state of the external negotiation engine
(`RTCPeerConnection.signalingState`). -/
inductive SignalingState
  | stable
  | haveLocalOffer
  | haveRemoteOffer
  | haveLocalPranswer
  | haveRemotePranswer
  | closed
deriving DecidableEq, Repr

/-- Model of the external media-negotiation engine (`RTCPeerConnection`).
`gen` models object identity (the source compares `currentPc === pc`);
`hasRemoteDescription` models `pc.remoteDescription !== null`. -/
structure Engine where
  gen : Nat
  signalingState : SignalingState
  hasRemoteDescription : Bool
deriving DecidableEq, Repr

/-- Queued network-traversal candidate, entries of `queuedIceCandidates`
(webrtc-service.ts line 29).  The candidate payload is abstracted to a `Nat`
identifier. -/
structure QueuedCandidate where
  callId : String
  candidate : Nat
  fromDeviceId : String
deriving DecidableEq, Repr

/-- Externally visible effects emitted by the core: engine invocations, relay
notifications (`POST /calls/{id}/end`, with optional reason body), UI-callback
invocations, resource releases and the poll loop's sleeps and fetches. -/
inductive Act
  | callSetRemoteDescription (callId : String)
  | addIceCandidate (candidate : Nat)
  | relayEnd (callId : String) (reason : Option String)
  | cbStateChange (state : CallState) (name : Option String)
  | cbActiveChange (isActive : Bool) (startedAt : Option Nat)
  | pcClose
  | stopLocalTracks
  | stopRemoteTracks
  | sleep (ms : Nat)
  | pollFetch (callId : String)
deriving DecidableEq, Repr

/-- The module-level mutable state of webrtc-service.ts (lines 11-29, 69-70).
The two callback slots are modelled by registration flags (`onCallStateChange`
and `onCallActiveChange` are nullable in the source, invoked with `?.`). -/
structure ServiceState where
  pc : Option Engine
  localStream : Bool
  remoteStream : Bool
  activeCallUUID : Option String
  currentCallState : CallState
  callerName : Option String
  activeCallStartedAt : Option Nat
  queuedIceCandidates : List QueuedCandidate
  currentDeviceId : Option String
  currentLoyaltyId : Option String
  isVoipInitialized : Bool
  isMuted : Bool
  isSpeakerEnabled : Bool
  onStateCbSet : Bool
  onActiveCbSet : Bool
deriving DecidableEq, Repr

/-- Invocation `onCallStateChange?.(state, name)`: fires only when a callback
is registered. -/
def emitState (s : ServiceState) (cs : CallState) (nm : Option String) : List Act :=
  if s.onStateCbSet then [Act.cbStateChange cs nm] else []

/-- Invocation `onCallActiveChange?.(isActive, startedAt)`. -/
def emitActive (s : ServiceState) (b : Bool) (t : Option Nat) : List Act :=
  if s.onActiveCbSet then [Act.cbActiveChange b t] else []

/-- The source's check `signalingState === 'stable' || signalingState ===
'have-remote-pranswer'` classifying the answer as already applied
(webrtc-service.ts line 206). -/
def answerAlreadySetP (ss : SignalingState) : Prop :=
  ss = SignalingState.stable ∨ ss = SignalingState.haveRemotePranswer

instance (ss : SignalingState) : Decidable (answerAlreadySetP ss) := by
  unfold answerAlreadySetP
  infer_instance

/-- Engine semantics of `pc.setRemoteDescription(answer)`: legal from
`have-local-offer` (or a provisional remote answer), reaching `stable` with a
remote description established; in any other phase the engine rejects with a
wrong-state error. -/
def setRemoteAnswer (e : Engine) : Except Unit Engine :=
  if e.signalingState = SignalingState.haveLocalOffer ∨
      e.signalingState = SignalingState.haveRemotePranswer then
    Except.ok { e with signalingState := SignalingState.stable, hasRemoteDescription := true }
  else
    Except.error ()

/-- Translation of `processQueuedIceCandidates` (webrtc-service.ts lines
32-66): a no-op unless the engine exists and has a remote description; removes
the entries matching `callId` from the queue (line 45), then applies each in
arrival order (errors from the engine are swallowed, lines 54-62).  Entries
with a different `callId` stay in the queue. -/
def processQueuedIceCandidates (callId : String) (s : ServiceState) :
    ServiceState × List Act :=
  match s.pc with
  | none => (s, [])
  | some e =>
    if e.hasRemoteDescription then
      let toProcess := s.queuedIceCandidates.filter (fun c => c.callId == callId)
      if toProcess.isEmpty then
        (s, [])
      else
        ({ s with queuedIceCandidates :=
             s.queuedIceCandidates.filter (fun c => !(c.callId == callId)) },
         toProcess.map (fun c => Act.addIceCandidate c.candidate))
    else
      (s, [])

/-- Translation of the socket `'answer'` handler (webrtc-service.ts lines
188-320).  Guard: an engine exists and the message is for the active call;
then the `shouldProcess` check (lines 206-216); then the three-way branch on
the observed signaling state: apply in `have-local-offer` (lines 230-265),
reconcile without applying when the answer is already set (lines 266-278), and
otherwise retry `setRemoteDescription` anyway inside a try/catch, swallowing a
rejection (lines 279-296). -/
def handleSocketAnswer (s : ServiceState) (callId : String) (now : Nat) :
    ServiceState × List Act :=
  match s.pc with
  | none => (s, [])
  | some e =>
    if s.activeCallUUID = some callId then
      if (s.currentCallState = CallState.calling ∨ s.currentCallState = CallState.ringing) ∨
          (s.currentCallState = CallState.answered ∧ ¬ answerAlreadySetP e.signalingState) then
        if e.signalingState = SignalingState.haveLocalOffer then
          let e' := { e with signalingState := SignalingState.stable,
                             hasRemoteDescription := true }
          let s1 := { s with pc := some e' }
          let d := processQueuedIceCandidates callId s1
          let s3 := { d.1 with currentCallState := CallState.answered,
                               activeCallStartedAt := some now }
          (s3, Act.callSetRemoteDescription callId :: d.2
                 ++ emitState s3 CallState.answered s3.callerName
                 ++ emitActive s3 true (some now))
        else if answerAlreadySetP e.signalingState then
          let d := processQueuedIceCandidates callId s
          let started := d.1.activeCallStartedAt.getD now
          let s3 := { d.1 with currentCallState := CallState.answered,
                               activeCallStartedAt := some started }
          (s3, d.2 ++ emitState s3 CallState.answered s3.callerName
                 ++ emitActive s3 true (some started))
        else
          match setRemoteAnswer e with
          | Except.ok e' =>
            let s1 := { s with pc := some e' }
            let d := processQueuedIceCandidates callId s1
            let started := d.1.activeCallStartedAt.getD now
            let s3 := { d.1 with currentCallState := CallState.answered,
                                 activeCallStartedAt := some started }
            (s3, Act.callSetRemoteDescription callId :: d.2
                   ++ emitState s3 CallState.answered s3.callerName
                   ++ emitActive s3 true (some started))
          | Except.error _ =>
            (s, [Act.callSetRemoteDescription callId])
      else
        (s, [])
    else
      (s, [])

/-- Inbound `call-state` push message (webrtc-service.ts line 102). -/
structure CallStateMessage where
  callId : String
  state : String
  direction : String
  callerNameField : Option String
  fromLoyaltyId : Option String
  peerDeviceId : Option String
deriving DecidableEq, Repr

/-- Message for the socket `'ice-candidate'` handler; `candidate := none`
models the null end-of-gathering signal. -/
structure IceMessage where
  callId : String
  candidate : Option Nat
  fromDeviceId : String
deriving DecidableEq, Repr

/-- Translation of the socket `'ice-candidate'` handler (webrtc-service.ts
lines 323-363): a null candidate is ignored; for the active call the
candidate is queued when no remote description exists, otherwise applied
immediately (engine errors swallowed); a mismatched callId or missing engine
is discarded with a warning, not an error. -/
def handleIceCandidate (s : ServiceState) (m : IceMessage) : ServiceState × List Act :=
  match m.candidate with
  | none => (s, [])
  | some cand =>
    match s.pc with
    | none => (s, [])
    | some e =>
      if s.activeCallUUID = some m.callId then
        if e.hasRemoteDescription then
          (s, [Act.addIceCandidate cand])
        else
          ({ s with queuedIceCandidates :=
               s.queuedIceCandidates ++ [⟨m.callId, cand, m.fromDeviceId⟩] }, [])
      else
        (s, [])

/-- Teardown path `endVoiceCall` (webrtc-service.ts lines 1187-1225): clear
the candidate queue, close the engine, stop both media streams, notify the
relay once if a call is active and a device is registered, then reset all callable
state to idle and fire both callbacks with the reset values. -/
def endVoiceCall (s : ServiceState) : ServiceState × List Act :=
  let closeActs : List Act := match s.pc with
    | some _ => [Act.pcClose]
    | none => []
  let localActs : List Act := if s.localStream then [Act.stopLocalTracks] else []
  let remoteActs : List Act := if s.remoteStream then [Act.stopRemoteTracks] else []
  let notifyActs : List Act := match s.activeCallUUID, s.currentDeviceId with
    | some cid, some _ => [Act.relayEnd cid none]
    | _, _ => []
  let s' := { s with pc := none, localStream := false, remoteStream := false,
                     activeCallUUID := none, activeCallStartedAt := none,
                     currentCallState := CallState.idle, callerName := none,
                     queuedIceCandidates := [] }
  (s', closeActs ++ localActs ++ remoteActs ++ notifyActs
        ++ emitState s CallState.idle none ++ emitActive s false none)

/-- Public `endCall` (webrtc-service.ts lines 1227-1229), which just invokes
`endVoiceCall`. -/
def endCall (s : ServiceState) : ServiceState × List Act :=
  endVoiceCall s

/-- Translation of the socket `'call-state'` handler (webrtc-service.ts lines
102-156).  `ringing`/`incoming` adopts the call; `answered` for the active
call (or with no active call, adopting the event's id) transitions to
answered, backfills a missing timer start, and fires both callbacks;
`ended`/`rejected` sets the terminal state, fires the state callback, then
runs `endVoiceCall`. -/
def handleCallStateUpdate (s : ServiceState) (m : CallStateMessage) (now : Nat) :
    ServiceState × List Act :=
  if m.state = "ringing" ∧ m.direction = "incoming" then
    let nm := ((m.callerNameField.orElse fun _ => m.fromLoyaltyId).orElse
                 fun _ => m.peerDeviceId).getD "Incoming call"
    let s' := { s with activeCallUUID := some m.callId,
                       currentCallState := CallState.ringing, callerName := some nm }
    (s', emitState s' CallState.ringing (some nm))
  else if m.state = "answered" then
    if s.activeCallUUID = some m.callId ∨ s.activeCallUUID = none then
      let s1 := { s with activeCallUUID := some m.callId }
      let started := s1.activeCallStartedAt.getD now
      let s2 := { s1 with currentCallState := CallState.answered,
                          activeCallStartedAt := some started }
      (s2, emitState s2 CallState.answered s2.callerName
             ++ emitActive s2 true (some started))
    else
      (s, [])
  else if m.state = "ended" ∨ m.state = "rejected" then
    let st := if m.state = "ended" then CallState.ended else CallState.rejected
    let s1 := { s with currentCallState := st }
    let acts1 := emitState s1 st s1.callerName
    let d := endVoiceCall s1
    (d.1, acts1 ++ d.2)
  else
    (s, [])

/-- Synchronous part of `rejectCall` (webrtc-service.ts lines 1148-1184): set
state to rejected, fire the state callback, notify the relay with reason
`rejected` when a device is registered, then run `endVoiceCall`.  The delayed
reset scheduled afterwards is `rejectCallDelayed`. -/
def rejectCall (s : ServiceState) (callUUID : String) : ServiceState × List Act :=
  let s1 := { s with currentCallState := CallState.rejected }
  let acts1 := emitState s1 CallState.rejected s1.callerName
  let acts2 : List Act := match s1.currentDeviceId with
    | some _ => [Act.relayEnd callUUID (some "rejected")]
    | none => []
  let d := endVoiceCall s1
  (d.1, acts1 ++ acts2 ++ d.2)

/-- The body of the `setTimeout` scheduled by `rejectCall` (webrtc-service.ts
lines 1178-1183), firing 2000 ms later. -/
def rejectCallDelayed (s : ServiceState) : ServiceState × List Act :=
  let s' := { s with currentCallState := CallState.idle, callerName := none,
                     activeCallUUID := none }
  (s', emitState s' CallState.idle none)

/-- Error raised by `startOutgoingVoiceCallByLoyaltyId` when the service is
not initialized (webrtc-service.ts line 615).  No self-call error exists in
the service. -/
inductive DialError
  | notInitializedErr
deriving DecidableEq, Repr

/-- Guard and first state mutation of `startOutgoingVoiceCallByLoyaltyId`
(webrtc-service.ts lines 600-622): throw when uninitialized, otherwise adopt a
fresh call id, enter `calling`, record the display name and fire the state
callback.  The target loyalty id is never compared against the local
identity. -/
def dialStart (s : ServiceState) (targetLoyaltyId displayName newCallId : String) :
    Except DialError (ServiceState × List Act) :=
  if ¬ s.isVoipInitialized ∨ s.currentDeviceId = none ∨ s.currentLoyaltyId = none then
    Except.error DialError.notInitializedErr
  else
    let _ := targetLoyaltyId
    let s1 := { s with activeCallUUID := some newCallId,
                       currentCallState := CallState.calling,
                       callerName := some displayName }
    Except.ok (s1, emitState s1 CallState.calling (some displayName))

/-- A user row as seen by the UI call handler in `src/app/page.tsx`. -/
structure UiUser where
  loyaltyId : String
  online : Bool
  hasVoipToken : Bool
  displayName : String
deriving DecidableEq, Repr

/-- Outcome of the UI call handler `handleCallUser` in `src/app/page.tsx`
(lines 156-219): each blocked branch shows an alert and starts no call. -/
inductive CallUserOutcome
  | notAuthorized
  | noLoyaltyId
  | selfCallBlocked
  | offlineBlocked
  | proceedDial (target : String) (displayName : String)
deriving DecidableEq, Repr

/-- Translation of the guard chain of `handleCallUser` (`src/app/page.tsx`
lines 156-202): missing stored user, missing loyalty id, the self-call guard
`user.loyaltyId === myLoyaltyId` (lines 187-190), and the offline guard, in
that order; only then is the dial operation invoked. -/
def handleCallUser (hasStoredUser : Bool) (myLoyaltyId : Option String)
    (user : UiUser) : CallUserOutcome :=
  if ¬ hasStoredUser then
    CallUserOutcome.notAuthorized
  else
    match myLoyaltyId with
    | none => CallUserOutcome.noLoyaltyId
    | some myId =>
      if user.loyaltyId = myId then
        CallUserOutcome.selfCallBlocked
      else if ¬ user.online ∧ ¬ user.hasVoipToken then
        CallUserOutcome.offlineBlocked
      else
        CallUserOutcome.proceedDial user.loyaltyId user.displayName

/-- One poll response of `GET /calls/{id}` as consumed by `waitForAnswerHTTP`:
`ok` is `resp.ok`, `hasAnswer` is `data.answer && data.answer.sdp`. -/
structure PollResponse where
  ok : Bool
  hasAnswer : Bool
deriving DecidableEq, Repr

/-- The captured-engine identity check `currentPc === pc` of the poll loop. -/
def pcMatches (s : ServiceState) (g : Nat) : Bool :=
  match s.pc with
  | some e => e.gen == g
  | none => false

/-- Body of the answer-bearing branch of one `waitForAnswerHTTP` iteration
(webrtc-service.ts lines 835-886), reached when the response carries an
answer and the engine is unchanged.  Returns the new state, the emitted
actions and whether the loop returns.  In `have-local-offer` the answer is
applied, the queue drained, state set to answered with a fresh timer; when the
answer is already set the state is reconciled (timer backfilled only when
missing, no drain); in any other phase the loop keeps polling. -/
def handlePollAnswer (s : ServiceState) (callId : String) (now : Nat) :
    ServiceState × List Act × Bool :=
  match s.pc with
  | none => (s, [], false)
  | some e =>
    if e.signalingState = SignalingState.haveLocalOffer then
      let e' := { e with signalingState := SignalingState.stable,
                         hasRemoteDescription := true }
      let s1 := { s with pc := some e' }
      let d := processQueuedIceCandidates callId s1
      let s3 := { d.1 with currentCallState := CallState.answered,
                           activeCallStartedAt := some now }
      (s3, Act.callSetRemoteDescription callId :: d.2
             ++ emitState s3 CallState.answered s3.callerName
             ++ emitActive s3 true (some now), true)
    else if answerAlreadySetP e.signalingState then
      let started := s.activeCallStartedAt.getD now
      let s3 := { s with currentCallState := CallState.answered,
                         activeCallStartedAt := some started }
      (s3, emitState s3 CallState.answered s3.callerName
             ++ emitActive s3 true (some started), true)
    else
      (s, [], false)

/-- The `for` loop of `waitForAnswerHTTP` (webrtc-service.ts lines 825-891):
each iteration sleeps 1000 ms, then returns if the engine was replaced or no
call is active, then fetches the call record; a failed or answerless response
continues; an answer-bearing response is handled by `handlePollAnswer`,
returning when it applied or reconciled the answer. -/
def pollLoop (callId : String) (g : Nat) (resps : Nat → PollResponse) (now : Nat) :
    Nat → Nat → ServiceState → ServiceState × List Act
  | 0, _, s => (s, [])
  | fuel + 1, i, s =>
    if ¬ (pcMatches s g) ∨ s.activeCallUUID = none then
      (s, [Act.sleep 1000])
    else
      let r := resps i
      if ¬ r.ok then
        let d := pollLoop callId g resps now fuel (i + 1) s
        (d.1, Act.sleep 1000 :: Act.pollFetch callId :: d.2)
      else if r.hasAnswer ∧ pcMatches s g then
        let h := handlePollAnswer s callId now
        if h.2.2 then
          (h.1, Act.sleep 1000 :: Act.pollFetch callId :: h.2.1)
        else
          let d := pollLoop callId g resps now fuel (i + 1) h.1
          (d.1, Act.sleep 1000 :: Act.pollFetch callId :: (h.2.1 ++ d.2))
      else
        let d := pollLoop callId g resps now fuel (i + 1) s
        (d.1, Act.sleep 1000 :: Act.pollFetch callId :: d.2)

/-- Translation of `waitForAnswerHTTP` (webrtc-service.ts lines 819-892):
captures the current engine, returns at once if there is none, then runs the
30-iteration poll loop. -/
def waitForAnswerHTTP (s : ServiceState) (callId : String)
    (resps : Nat → PollResponse) (now : Nat) : ServiceState × List Act :=
  match s.pc with
  | none => (s, [])
  | some e => pollLoop callId e.gen resps now 30 0 s

/-- Return shape of `getCallState` (webrtc-service.ts lines 1250-1264). -/
structure CallStateView where
  state : CallState
  callerName : Option String
  isMuted : Bool
  isSpeakerEnabled : Bool
  callUUID : Option String
deriving DecidableEq, Repr

/-- Translation of `getCallState`. -/
def getCallState (s : ServiceState) : CallStateView :=
  ⟨s.currentCallState, s.callerName, s.isMuted, s.isSpeakerEnabled, s.activeCallUUID⟩

/-- Return shape of `getActiveCallInfo` (webrtc-service.ts lines 1267-1275). -/
structure ActiveCallInfo where
  isActive : Bool
  startedAt : Option Nat
deriving DecidableEq, Repr

/-- Translation of `getActiveCallInfo`: active iff the state is answered and a
timer start exists. -/
def getActiveCallInfo (s : ServiceState) : ActiveCallInfo :=
  ⟨(s.currentCallState == CallState.answered) && s.activeCallStartedAt.isSome, s.activeCallStartedAt⟩

/-- Number of actions in a trace satisfying a predicate. -/
def countA (p : Act → Bool) (t : List Act) : Nat :=
  (t.filter p).length

/-- Predicate selecting engine description-setting invocations. -/
def isSetRd : Act → Bool
  | Act.callSetRemoteDescription _ => true
  | _ => false

/-- Predicate selecting relay end notifications. -/
def isRelayEnd : Act → Bool
  | Act.relayEnd _ _ => true
  | _ => false

/-- Predicate selecting poll fetches. -/
def isPollFetch : Act → Bool
  | Act.pollFetch _ => true
  | _ => false

/-- Predicate selecting sleeps. -/
def isSleep : Act → Bool
  | Act.sleep _ => true
  | _ => false

/-- Predicate selecting state-callback invocations reporting `answered`. -/
def isCbStateAnswered : Act → Bool
  | Act.cbStateChange CallState.answered _ => true
  | _ => false

/-- Predicate selecting engine close invocations. -/
def isPcClose : Act → Bool
  | Act.pcClose => true
  | _ => false

/-- Predicate selecting local-media releases. -/
def isStopLocal : Act → Bool
  | Act.stopLocalTracks => true
  | _ => false

/-- Predicate selecting remote-media releases. -/
def isStopRemote : Act → Bool
  | Act.stopRemoteTracks => true
  | _ => false

theorem countA_nil (p : Act → Bool) : countA p [] = 0 := rfl

theorem countA_cons (p : Act → Bool) (a : Act) (t : List Act) :
    countA p (a :: t) = (if p a then 1 else 0) + countA p t := by
  simp only [countA, List.filter_cons]
  split <;> simp [Nat.add_comm]

theorem countA_append (p : Act → Bool) (a b : List Act) :
    countA p (a ++ b) = countA p a + countA p b := by
  simp [countA, List.filter_append]

theorem countA_map_addIce (p : Act → Bool) (hp : ∀ n, p (Act.addIceCandidate n) = false)
    (l : List QueuedCandidate) :
    countA p (l.map fun c => Act.addIceCandidate c.candidate) = 0 := by
  induction l with
  | nil => rfl
  | cons a t ih =>
    simp only [List.map_cons, countA_cons, hp, if_false]
    simpa using ih

theorem countA_emitState (p : Act → Bool)
    (hp : ∀ cs nm, p (Act.cbStateChange cs nm) = false)
    (s : ServiceState) (cs : CallState) (nm : Option String) :
    countA p (emitState s cs nm) = 0 := by
  unfold emitState
  split <;> simp [countA_cons, countA_nil, hp]

theorem countA_emitActive (p : Act → Bool)
    (hp : ∀ b t, p (Act.cbActiveChange b t) = false)
    (s : ServiceState) (b : Bool) (t : Option Nat) :
    countA p (emitActive s b t) = 0 := by
  unfold emitActive
  split <;> simp [countA_cons, countA_nil, hp]

theorem countA_isSetRd_emitState (s : ServiceState) (cs : CallState) (nm : Option String) :
    countA isSetRd (emitState s cs nm) = 0 :=
  countA_emitState isSetRd (fun _ _ => rfl) s cs nm

theorem countA_isSetRd_emitActive (s : ServiceState) (b : Bool) (t : Option Nat) :
    countA isSetRd (emitActive s b t) = 0 :=
  countA_emitActive isSetRd (fun _ _ => rfl) s b t

theorem countA_isSetRd_map_addIce (l : List QueuedCandidate) :
    countA isSetRd (l.map fun c => Act.addIceCandidate c.candidate) = 0 :=
  countA_map_addIce isSetRd (fun _ => rfl) l

theorem filter_not_of_filter_nil {α : Type} (p : α → Bool) :
    ∀ l : List α, l.filter p = [] → l.filter (fun a => !(p a)) = l := by
  intro l
  induction l with
  | nil => intro _; rfl
  | cons a t ih =>
    intro h
    cases hpa : p a with
    | true => simp [List.filter_cons, hpa] at h
    | false =>
      simp only [List.filter_cons, hpa] at h
      simp [List.filter_cons, hpa, ih h]

theorem filter_filter_not {α : Type} (p : α → Bool) (l : List α) :
    (l.filter (fun a => !(p a))).filter p = [] := by
  induction l with
  | nil => rfl
  | cons a t ih =>
    cases hpa : p a <;> simp [List.filter_cons, hpa, ih]

theorem drain_eq_of_remote (callId : String) (s : ServiceState) (e : Engine)
    (hpc : s.pc = some e) (hrd : e.hasRemoteDescription = true) :
    processQueuedIceCandidates callId s =
      ({ s with queuedIceCandidates :=
           s.queuedIceCandidates.filter (fun c => !(c.callId == callId)) },
       (s.queuedIceCandidates.filter (fun c => c.callId == callId)).map
         (fun c => Act.addIceCandidate c.candidate)) := by
  unfold processQueuedIceCandidates
  rw [hpc]
  simp only [hrd, if_true]
  split
  · next hemp =>
    rw [List.isEmpty_iff] at hemp
    rw [hemp, filter_not_of_filter_nil _ _ hemp]
    simp [← hpc]
  · rfl

/-- Claim C3 counterexample: after draining call "A", the queued entry for the
foreign call "B" is retained in the queue, not discarded — refuting the
claim's final clause that remaining non-matching entries are discarded. -/
theorem drain_retains_foreign_entries :
    (processQueuedIceCandidates "A"
      { pc := some ⟨1, SignalingState.stable, true⟩, localStream := true,
        remoteStream := true, activeCallUUID := some "A",
        currentCallState := CallState.answered, callerName := some "Bob",
        activeCallStartedAt := some 10,
        queuedIceCandidates := [⟨"A", 1, "d1"⟩, ⟨"B", 2, "d2"⟩],
        currentDeviceId := some "dev", currentLoyaltyId := some "me",
        isVoipInitialized := true, isMuted := false, isSpeakerEnabled := false,
        onStateCbSet := true, onActiveCbSet := true }).1.queuedIceCandidates =
      [⟨"B", 2, "d2"⟩] ∧ "B" ≠ "A" := by
  exact ⟨rfl, by decide⟩

/-- Claim C3 (amended): once a remote description is established, draining
applies exactly the queued candidates whose callId matches, in their original
arrival order, removing them from the queue before applying (so a second
drain applies nothing); entries whose callId does not match are retained in
the queue, not discarded. -/
theorem drain_applies_matching_once_retains_foreign
    (g : Nat) (ss : SignalingState) (ls rs : Bool) (au : Option String)
    (cs : CallState) (nm : Option String) (st : Option Nat)
    (q : List QueuedCandidate) (dev loy : Option String)
    (init mu sp b1 b2 : Bool) (cid : String) :
    (processQueuedIceCandidates cid
        ⟨some ⟨g, ss, true⟩, ls, rs, au, cs, nm, st, q, dev, loy, init, mu, sp, b1, b2⟩).2 =
      (q.filter (fun c => c.callId == cid)).map (fun c => Act.addIceCandidate c.candidate) ∧
    (processQueuedIceCandidates cid
        ⟨some ⟨g, ss, true⟩, ls, rs, au, cs, nm, st, q, dev, loy, init, mu, sp, b1, b2⟩).1 =
      ⟨some ⟨g, ss, true⟩, ls, rs, au, cs, nm, st,
        q.filter (fun c => !(c.callId == cid)), dev, loy, init, mu, sp, b1, b2⟩ ∧
    (processQueuedIceCandidates cid
        (processQueuedIceCandidates cid
          ⟨some ⟨g, ss, true⟩, ls, rs, au, cs, nm, st, q, dev, loy,
            init, mu, sp, b1, b2⟩).1).2 = [] := by
  have h := drain_eq_of_remote cid
    ⟨some ⟨g, ss, true⟩, ls, rs, au, cs, nm, st, q, dev, loy, init, mu, sp, b1, b2⟩
    ⟨g, ss, true⟩ rfl rfl
  rw [h]
  refine ⟨rfl, rfl, ?_⟩
  have h2 := drain_eq_of_remote cid
    ⟨some ⟨g, ss, true⟩, ls, rs, au, cs, nm, st,
      q.filter (fun c => !(c.callId == cid)), dev, loy, init, mu, sp, b1, b2⟩
    ⟨g, ss, true⟩ rfl rfl
  rw [h2]
  simp [filter_filter_not]

/-- Claim C6: an inbound candidate message for the active call is queued when
the engine has no remote description and applied immediately otherwise; a
message whose callId does not match the active call, or arriving with no
engine, is discarded without error; a null candidate is ignored. -/
theorem ice_candidate_routing
    (g : Nat) (ss : SignalingState) (rd ls rs : Bool) (au : Option String)
    (cs : CallState) (nm : Option String) (st : Option Nat)
    (q : List QueuedCandidate) (dev loy : Option String)
    (init mu sp b1 b2 : Bool) (cid : String) (cand : Nat) (fd : String) :
    handleIceCandidate
        ⟨some ⟨g, ss, rd⟩, ls, rs, au, cs, nm, st, q, dev, loy, init, mu, sp, b1, b2⟩
        ⟨cid, some cand, fd⟩ =
      (if au = some cid then
        (if rd then
          (⟨some ⟨g, ss, rd⟩, ls, rs, au, cs, nm, st, q, dev, loy, init, mu, sp, b1, b2⟩,
           [Act.addIceCandidate cand])
        else
          (⟨some ⟨g, ss, rd⟩, ls, rs, au, cs, nm, st, q ++ [⟨cid, cand, fd⟩],
            dev, loy, init, mu, sp, b1, b2⟩, []))
      else
        (⟨some ⟨g, ss, rd⟩, ls, rs, au, cs, nm, st, q, dev, loy, init, mu, sp, b1, b2⟩, [])) ∧
    handleIceCandidate
        ⟨some ⟨g, ss, rd⟩, ls, rs, au, cs, nm, st, q, dev, loy, init, mu, sp, b1, b2⟩
        ⟨cid, none, fd⟩ =
      (⟨some ⟨g, ss, rd⟩, ls, rs, au, cs, nm, st, q, dev, loy, init, mu, sp, b1, b2⟩, []) ∧
    handleIceCandidate
        ⟨none, ls, rs, au, cs, nm, st, q, dev, loy, init, mu, sp, b1, b2⟩
        ⟨cid, some cand, fd⟩ =
      (⟨none, ls, rs, au, cs, nm, st, q, dev, loy, init, mu, sp, b1, b2⟩, []) := by
  refine ⟨?_, rfl, rfl⟩
  by_cases h : au = some cid
  · cases rd <;> simp [handleIceCandidate, h]
  · simp [handleIceCandidate, h]

/-- Claim C5: `endCall` is idempotent — in any state it reaches `idle` with
the engine closed and both media streams released, a second call leaves that
state fixed, and across the two calls the relay end notification is sent at
most once; the trace releases the engine and each open stream exactly once. -/
theorem end_call_idempotent_teardown (s : ServiceState) :
    (endCall s).1.currentCallState = CallState.idle ∧
    (endCall s).1.pc = none ∧
    (endCall s).1.localStream = false ∧
    (endCall s).1.remoteStream = false ∧
    (endCall (endCall s).1).1 = (endCall s).1 ∧
    countA isRelayEnd ((endCall s).2 ++ (endCall (endCall s).1).2) ≤ 1 ∧
    countA isPcClose (endCall s).2 = (if s.pc.isSome then 1 else 0) ∧
    countA isStopLocal (endCall s).2 = (if s.localStream then 1 else 0) ∧
    countA isStopRemote (endCall s).2 = (if s.remoteStream then 1 else 0) := by
  obtain ⟨pc, ls, rs, au, cs, nm, st, q, dev, loy, init, mu, sp, b1, b2⟩ := s
  cases pc <;> cases ls <;> cases rs <;> cases au <;> cases dev <;> cases b1 <;> cases b2 <;>
    simp [endCall, endVoiceCall, emitState, emitActive, countA_append, countA_cons,
      countA_nil, isRelayEnd, isPcClose, isStopLocal, isStopRemote]

/-- Claim C10: after `endCall` returns, in any reachable state with both UI
callbacks registered, `getCallState` reports `idle` with no caller name and no
call id, `getActiveCallInfo` reports inactive with no start time, the
candidate queue is empty, and both callbacks were fired with the reset
values. -/
theorem end_call_resets_observable_state
    (pc : Option Engine) (ls rs : Bool) (au : Option String) (cs : CallState)
    (nm : Option String) (st : Option Nat) (q : List QueuedCandidate)
    (dev loy : Option String) (init mu sp : Bool) :
    getCallState (endCall ⟨pc, ls, rs, au, cs, nm, st, q, dev, loy,
        init, mu, sp, true, true⟩).1 =
      ⟨CallState.idle, none, mu, sp, none⟩ ∧
    getActiveCallInfo (endCall ⟨pc, ls, rs, au, cs, nm, st, q, dev, loy,
        init, mu, sp, true, true⟩).1 = ⟨false, none⟩ ∧
    (endCall ⟨pc, ls, rs, au, cs, nm, st, q, dev, loy,
        init, mu, sp, true, true⟩).1.queuedIceCandidates = [] ∧
    Act.cbStateChange CallState.idle none ∈
      (endCall ⟨pc, ls, rs, au, cs, nm, st, q, dev, loy, init, mu, sp, true, true⟩).2 ∧
    Act.cbActiveChange false none ∈
      (endCall ⟨pc, ls, rs, au, cs, nm, st, q, dev, loy, init, mu, sp, true, true⟩).2 := by
  refine ⟨rfl, rfl, rfl, ?_, ?_⟩ <;>
    simp [endCall, endVoiceCall, emitState, emitActive, List.mem_append]

/-- Claim C1: for a pair of duplicate Answer deliveries for the active
outgoing call — one through the socket `'answer'` handler and one through the
HTTP poll fallback — processed sequentially in either order, the engine's
description-setting operation is invoked exactly once and the call state
transitions to `answered` exactly once; the second delivery never re-invokes
the description-setting operation (through the socket handler it is a
complete no-op). -/
theorem answer_race_sets_remote_description_once
    (g : Nat) (ls rs : Bool) (cid : String) (nm : Option String) (st : Option Nat)
    (dev loy : Option String) (init mu sp b1 b2 : Bool) (now1 now2 : Nat) :
    let s0 : ServiceState := ⟨some ⟨g, SignalingState.haveLocalOffer, false⟩, ls, rs,
      some cid, CallState.calling, nm, st, [], dev, loy, init, mu, sp, b1, b2⟩
    let r1 := handleSocketAnswer s0 cid now1
    let r2 := handlePollAnswer r1.1 cid now2
    let p1 := handlePollAnswer s0 cid now1
    let p2 := handleSocketAnswer p1.1 cid now2
    s0.currentCallState ≠ CallState.answered ∧
    r1.1.currentCallState = CallState.answered ∧
    r2.1.currentCallState = CallState.answered ∧
    countA isSetRd (r1.2 ++ r2.2.1) = 1 ∧
    countA isSetRd r2.2.1 = 0 ∧
    p1.1.currentCallState = CallState.answered ∧
    countA isSetRd (p1.2.1 ++ p2.2) = 1 ∧
    p2 = (p1.1, []) := by
  cases b1 <;> cases b2 <;>
    simp [handleSocketAnswer, handlePollAnswer, processQueuedIceCandidates,
      emitState, emitActive, countA_append, countA_cons, countA_nil, isSetRd,
      answerAlreadySetP]

/-- Claim C2 counterexample: with the engine observed in `have-remote-offer`
(not `have-local-offer`), the socket answer handler still invokes the engine's
description-setting operation (the wrong-state retry branch, webrtc-service.ts
lines 279-296), refuting the claim that setRemoteDescription is called only
when the observed signaling state is `have-local-offer`. -/
theorem answer_retry_invokes_set_remote_in_wrong_state :
    handleSocketAnswer
        { pc := some ⟨1, SignalingState.haveRemoteOffer, true⟩, localStream := true,
          remoteStream := false, activeCallUUID := some "c1",
          currentCallState := CallState.ringing, callerName := some "Alice",
          activeCallStartedAt := none, queuedIceCandidates := [],
          currentDeviceId := some "dev", currentLoyaltyId := some "me",
          isVoipInitialized := true, isMuted := false, isSpeakerEnabled := false,
          onStateCbSet := true, onActiveCbSet := true } "c1" 42 =
      ({ pc := some ⟨1, SignalingState.haveRemoteOffer, true⟩, localStream := true,
         remoteStream := false, activeCallUUID := some "c1",
         currentCallState := CallState.ringing, callerName := some "Alice",
         activeCallStartedAt := none, queuedIceCandidates := [],
         currentDeviceId := some "dev", currentLoyaltyId := some "me",
         isVoipInitialized := true, isMuted := false, isSpeakerEnabled := false,
         onStateCbSet := true, onActiveCbSet := true },
       [Act.callSetRemoteDescription "c1"]) ∧
    SignalingState.haveRemoteOffer ≠ SignalingState.haveLocalOffer := by
  exact ⟨by decide, by decide⟩

/-- Claim C2 (amended): when an Answer is handled for the active call,
setRemoteDescription is applied unguardedly only when the observed signaling
state is `have-local-offer`; when the answer is already set (`stable` or
`have-remote-pranswer`) the handler reconciles to `answered` without invoking
it; in every other observed phase the handler attempts setRemoteDescription
once as a retry and, when the engine rejects it, absorbs the rejection and
leaves the state unchanged — it never forces a transition the engine
disallows. -/
theorem answer_handler_set_remote_phases
    (g : Nat) (ss : SignalingState) (rd ls rs : Bool) (cid : String)
    (cs : CallState) (nm : Option String) (st : Option Nat)
    (dev loy : Option String) (init mu sp b1 b2 : Bool) (now : Nat) :
    let s0 : ServiceState := ⟨some ⟨g, ss, rd⟩, ls, rs, some cid, cs, nm, st, [],
      dev, loy, init, mu, sp, b1, b2⟩
    let r := handleSocketAnswer s0 cid now
    if (cs = CallState.calling ∨ cs = CallState.ringing) ∨
        (cs = CallState.answered ∧ ¬ answerAlreadySetP ss) then
      (if ss = SignalingState.haveLocalOffer then
        countA isSetRd r.2 = 1 ∧ r.1.currentCallState = CallState.answered
      else if answerAlreadySetP ss then
        countA isSetRd r.2 = 0 ∧ r.1.currentCallState = CallState.answered
      else
        r = (s0, [Act.callSetRemoteDescription cid]))
    else
      r = (s0, []) := by
  cases ss <;> cases cs <;> cases b1 <;> cases b2 <;>
    simp [handleSocketAnswer, processQueuedIceCandidates, setRemoteAnswer,
      emitState, emitActive, countA_append, countA_cons, countA_nil, isSetRd,
      answerAlreadySetP]

/-- Claim C4 counterexample: delivering the same `answered` CallStateUpdate
twice produces two invocations of the state callback reporting `answered`
although only the first delivery is an effective transition (the second
leaves the state fixed), refuting "invoked at most once per effective
transition". -/
theorem answered_redelivery_refires_callbacks :
    let s0 : ServiceState := ⟨some ⟨1, SignalingState.haveLocalOffer, false⟩, true, false,
      some "c1", CallState.calling, some "Alice", none, [], some "dev", some "me",
      true, false, false, true, true⟩
    let m : CallStateMessage := ⟨"c1", "answered", "incoming", none, none, none⟩
    let r1 := handleCallStateUpdate s0 m 100
    let r2 := handleCallStateUpdate r1.1 m 200
    s0.currentCallState ≠ CallState.answered ∧
    r1.1.currentCallState = CallState.answered ∧
    r2.1 = r1.1 ∧
    countA isCbStateAnswered (r1.2 ++ r2.2) = 2 := by
  decide

/-- Claim C4 (amended): re-delivering an `answered` CallStateUpdate while the
call is already `answered` leaves the state unchanged — the running timer is
not reset (a missing start is backfilled with the delivery time) and no relay
notification or engine invocation occurs — but both UI callbacks are
re-invoked on every such delivery; a duplicate Answer arriving through the
socket handler while the answer is already set is a complete no-op. -/
theorem answered_redelivery_effects
    (pc : Option Engine) (ls rs : Bool) (cid : String) (nm : Option String)
    (t0 : Nat) (q : List QueuedCandidate) (dev loy : Option String)
    (init mu sp : Bool) (g : Nat) (now : Nat) (dir : String) :
    handleCallStateUpdate
        (⟨pc, ls, rs, some cid, CallState.answered, nm, some t0, q,
          dev, loy, init, mu, sp, true, true⟩ : ServiceState)
        ⟨cid, "answered", dir, none, none, none⟩ now =
      (⟨pc, ls, rs, some cid, CallState.answered, nm, some t0, q,
        dev, loy, init, mu, sp, true, true⟩,
       [Act.cbStateChange CallState.answered nm, Act.cbActiveChange true (some t0)]) ∧
    (handleCallStateUpdate
        (⟨pc, ls, rs, some cid, CallState.answered, nm, none, q,
          dev, loy, init, mu, sp, true, true⟩ : ServiceState)
        ⟨cid, "answered", dir, none, none, none⟩ now).1.activeCallStartedAt = some now ∧
    handleSocketAnswer
        (⟨some ⟨g, SignalingState.stable, true⟩, ls, rs, some cid, CallState.answered, nm,
          some t0, q, dev, loy, init, mu, sp, true, true⟩ : ServiceState) cid now =
      ((⟨some ⟨g, SignalingState.stable, true⟩, ls, rs, some cid, CallState.answered, nm,
         some t0, q, dev, loy, init, mu, sp, true, true⟩ : ServiceState), []) := by
  refine ⟨?_, ?_, ?_⟩
  · simp [handleCallStateUpdate, emitState, emitActive]
  · simp [handleCallStateUpdate, emitState, emitActive]
  · simp [handleSocketAnswer, answerAlreadySetP]

/-- Claim C7 counterexample: `startOutgoingVoiceCallByLoyaltyId` performs no
self-call check — dialing from an initialized state with the target equal to
the local identity succeeds, raises no error, and starts a call (state
`calling`). -/
theorem dial_self_target_starts_call :
    dialStart
        { pc := none, localStream := false, remoteStream := false,
          activeCallUUID := none, currentCallState := CallState.idle,
          callerName := none, activeCallStartedAt := none, queuedIceCandidates := [],
          currentDeviceId := some "dev", currentLoyaltyId := some "me",
          isVoipInitialized := true, isMuted := false, isSpeakerEnabled := false,
          onStateCbSet := true, onActiveCbSet := true } "me" "Me" "call-1" =
      Except.ok
        ({ pc := none, localStream := false, remoteStream := false,
           activeCallUUID := some "call-1", currentCallState := CallState.calling,
           callerName := some "Me", activeCallStartedAt := none, queuedIceCandidates := [],
           currentDeviceId := some "dev", currentLoyaltyId := some "me",
           isVoipInitialized := true, isMuted := false, isSpeakerEnabled := false,
           onStateCbSet := true, onActiveCbSet := true },
         [Act.cbStateChange CallState.calling (some "Me")]) := by
  rfl

/-- Claim C7 (amended): the dial operation itself performs no self-call
check — from any initialized state it starts a call (state `calling`) for any
target, including the local identity — while the UI call handler blocks a
self-call before invoking dial, so no call is started through the UI when the
target equals the local identity. -/
theorem self_call_guard_in_ui_handler
    (myId : String) (onl tok : Bool) (dn : String)
    (pc : Option Engine) (ls rs : Bool) (au : Option String) (cs : CallState)
    (nm : Option String) (st : Option Nat) (q : List QueuedCandidate)
    (dev : String) (mu sp b1 b2 : Bool) (target dn2 ncid : String) :
    handleCallUser true (some myId) ⟨myId, onl, tok, dn⟩ =
      CallUserOutcome.selfCallBlocked ∧
    dialStart (⟨pc, ls, rs, au, cs, nm, st, q, some dev, some myId,
        true, mu, sp, b1, b2⟩ : ServiceState) target dn2 ncid =
      Except.ok
        (⟨pc, ls, rs, some ncid, CallState.calling, some dn2, st, q, some dev,
          some myId, true, mu, sp, b1, b2⟩,
         emitState (⟨pc, ls, rs, some ncid, CallState.calling, some dn2, st, q, some dev,
           some myId, true, mu, sp, b1, b2⟩ : ServiceState) CallState.calling (some dn2)) := by
  constructor
  · simp [handleCallUser]
  · simp [dialStart]

/-- Claim C8 (code bug): rejecting a ringing inbound call notifies the relay
with reason `rejected` and reports `rejected` through the state callback, but
the observable state does not remain `rejected` for the grace period —
`endVoiceCall`, invoked synchronously inside `rejectCall`, resets the state to
`idle` and clears the caller name immediately, before the 2000 ms delayed
reset ever fires, contradicting the source's own comment that the reset is
delayed to let the UI show the rejected state. -/
theorem reject_call_resets_to_idle_immediately :
    let s0 : ServiceState := ⟨some ⟨1, SignalingState.haveRemoteOffer, true⟩, true, false,
      some "c1", CallState.ringing, some "Alice", none, [], some "dev", some "me",
      true, false, false, true, true⟩
    let r := rejectCall s0 "c1"
    r.1.currentCallState = CallState.idle ∧
    r.1.callerName = none ∧
    Act.relayEnd "c1" (some "rejected") ∈ r.2 ∧
    Act.cbStateChange CallState.rejected (some "Alice") ∈ r.2 ∧
    getCallState r.1 = ⟨CallState.idle, none, false, false, none⟩ := by
  decide

theorem countA_drain (p : Act → Bool) (hp : ∀ n, p (Act.addIceCandidate n) = false)
    (c : String) (s : ServiceState) :
    countA p (processQueuedIceCandidates c s).2 = 0 := by
  unfold processQueuedIceCandidates
  rcases hpc : s.pc with _ | e
  · rfl
  · dsimp only
    split
    · split
      · rfl
      · exact countA_map_addIce p hp _
    · rfl

theorem handlePollAnswer_counts (p : Act → Bool)
    (h1 : ∀ c, p (Act.callSetRemoteDescription c) = false)
    (h2 : ∀ n, p (Act.addIceCandidate n) = false)
    (h3 : ∀ cs nm, p (Act.cbStateChange cs nm) = false)
    (h4 : ∀ b t, p (Act.cbActiveChange b t) = false)
    (s : ServiceState) (c : String) (n : Nat) :
    countA p (handlePollAnswer s c n).2.1 = 0 := by
  unfold handlePollAnswer
  rcases hpc : s.pc with _ | e
  · rfl
  · dsimp only
    split
    · simp [countA_cons, countA_append, h1, countA_drain p h2,
        countA_emitState p h3, countA_emitActive p h4]
    · split
      · simp [countA_append, countA_emitState p h3, countA_emitActive p h4]
      · rfl

theorem pollLoop_counts (callId : String) (g : Nat) (resps : Nat → PollResponse)
    (now : Nat) :
    ∀ fuel i s,
      countA isPollFetch (pollLoop callId g resps now fuel i s).2 ≤
        countA isSleep (pollLoop callId g resps now fuel i s).2 ∧
      countA isSleep (pollLoop callId g resps now fuel i s).2 ≤ fuel := by
  intro fuel
  induction fuel with
  | zero => intro i s; exact ⟨Nat.le_refl _, Nat.zero_le _⟩
  | succ k ih =>
    intro i s
    simp only [pollLoop]
    split
    · simp [countA_cons, countA_nil, isPollFetch, isSleep]
    · split
      · have h := ih (i + 1) s
        simp only [countA_cons, isPollFetch, isSleep]
        simp only [Bool.false_eq_true, if_false, if_true]
        omega
      · split
        · split
          · have hf := handlePollAnswer_counts isPollFetch (fun _ => rfl) (fun _ => rfl)
              (fun _ _ => rfl) (fun _ _ => rfl) s callId now
            have hs := handlePollAnswer_counts isSleep (fun _ => rfl) (fun _ => rfl)
              (fun _ _ => rfl) (fun _ _ => rfl) s callId now
            simp only [countA_cons, isPollFetch, isSleep]
            simp only [Bool.false_eq_true, if_false, if_true]
            omega
          · have hf := handlePollAnswer_counts isPollFetch (fun _ => rfl) (fun _ => rfl)
              (fun _ _ => rfl) (fun _ _ => rfl) s callId now
            have hs := handlePollAnswer_counts isSleep (fun _ => rfl) (fun _ => rfl)
              (fun _ _ => rfl) (fun _ _ => rfl) s callId now
            have h := ih (i + 1) (handlePollAnswer s callId now).1
            simp only [countA_cons, countA_append, isPollFetch, isSleep]
            simp only [Bool.false_eq_true, if_false, if_true]
            omega
        · have h := ih (i + 1) s
          simp only [countA_cons, isPollFetch, isSleep]
          simp only [Bool.false_eq_true, if_false, if_true]
          omega

/-- Claim C9: the HTTP answer-poll fallback performs at most 30 poll attempts,
each preceded by its own one-second sleep (so attempts are spaced 1 s apart,
and the number of fetches never exceeds the number of sleeps); on every
iteration it stops cooperatively, without acting, when the engine was replaced
or no call id is active; and it terminates as soon as an answer is applied —
when the first response carries the answer while the engine is in
`have-local-offer`, exactly one fetch and one description-setting invocation
occur and the loop returns with the call answered. -/
theorem answer_poll_bounded_and_cooperative :
    (∀ (s : ServiceState) (cid : String) (resps : Nat → PollResponse) (now : Nat),
      countA isPollFetch (waitForAnswerHTTP s cid resps now).2 ≤ 30 ∧
      countA isPollFetch (waitForAnswerHTTP s cid resps now).2 ≤
        countA isSleep (waitForAnswerHTTP s cid resps now).2) ∧
    (∀ (cid : String) (g : Nat) (resps : Nat → PollResponse) (now fuel i : Nat)
        (ls rs : Bool) (au : Option String) (cs : CallState) (nm : Option String)
        (st : Option Nat) (q : List QueuedCandidate) (dev loy : Option String)
        (init mu sp b1 b2 : Bool) (e : Engine),
      pollLoop cid g resps now (fuel + 1) i
          ⟨none, ls, rs, au, cs, nm, st, q, dev, loy, init, mu, sp, b1, b2⟩ =
        (⟨none, ls, rs, au, cs, nm, st, q, dev, loy, init, mu, sp, b1, b2⟩,
         [Act.sleep 1000]) ∧
      pollLoop cid g resps now (fuel + 1) i
          ⟨some e, ls, rs, none, cs, nm, st, q, dev, loy, init, mu, sp, b1, b2⟩ =
        (⟨some e, ls, rs, none, cs, nm, st, q, dev, loy, init, mu, sp, b1, b2⟩,
         [Act.sleep 1000])) ∧
    (∀ (cid : String) (g : Nat) (now : Nat) (ls rs : Bool) (nm : Option String)
        (st : Option Nat) (dev loy : Option String) (init mu sp b1 b2 : Bool),
      (waitForAnswerHTTP
          ⟨some ⟨g, SignalingState.haveLocalOffer, false⟩, ls, rs, some cid,
            CallState.calling, nm, st, [], dev, loy, init, mu, sp, b1, b2⟩
          cid (fun _ => ⟨true, true⟩) now).1.currentCallState = CallState.answered ∧
      countA isPollFetch (waitForAnswerHTTP
          ⟨some ⟨g, SignalingState.haveLocalOffer, false⟩, ls, rs, some cid,
            CallState.calling, nm, st, [], dev, loy, init, mu, sp, b1, b2⟩
          cid (fun _ => ⟨true, true⟩) now).2 = 1 ∧
      countA isSetRd (waitForAnswerHTTP
          ⟨some ⟨g, SignalingState.haveLocalOffer, false⟩, ls, rs, some cid,
            CallState.calling, nm, st, [], dev, loy, init, mu, sp, b1, b2⟩
          cid (fun _ => ⟨true, true⟩) now).2 = 1) := by
  refine ⟨?_, ?_, ?_⟩
  · intro s cid resps now
    unfold waitForAnswerHTTP
    rcases hpc : s.pc with _ | e
    · exact ⟨Nat.zero_le _, Nat.le_refl _⟩
    · have h := pollLoop_counts cid e.gen resps now 30 0 s
      exact ⟨Nat.le_trans h.1 h.2, h.1⟩
  · intro cid g resps now fuel i ls rs au cs nm st q dev loy init mu sp b1 b2 e
    constructor
    · simp [pollLoop, pcMatches]
    · simp [pollLoop, pcMatches]
  · intro cid g now ls rs nm st dev loy init mu sp b1 b2
    have h30 : (30 : Nat) = 29 + 1 := rfl
    cases b1 <;> cases b2 <;>
      simp [waitForAnswerHTTP, h30, pollLoop, pcMatches, handlePollAnswer,
        processQueuedIceCandidates, emitState, emitActive, countA_cons, countA_nil,
        countA_append, isPollFetch, isSetRd, isSleep, answerAlreadySetP]
